import Mathlib

/-!
Verification model of the `whois-server` repository (Go).

The repository contains two variants of the server:

* `src/unnamed/part_000` — the template-file variant: `checkDomain` validates
  the query with a regular expression and a hard-coded `.ge` category scheme,
  writing per-kind error templates loaded from `./tmpl` files.
  Modelled below in namespace `Regexp`.
* `src/main.go` — the database variant: `checkDomain` matches the suffix of
  the query (from the first `.`) against the `TLDS` list, and `handleSuccess`
  looks the domain up in the registry database.
  Modelled below in namespace `Gorm`.

Strings are modelled as `List Char` (Go strings restricted to their ASCII
behaviour, which is the scope of every claim here); Go's `strings.ToLower` /
`strings.ToUpper` are modelled by mapping Lean's ASCII-only `Char.toLower` /
`Char.toUpper`; `strings.Split` is `List.splitOn`.

A network connection is modelled by its client-visible state: the list of
successfully written chunks plus a closed flag.  `conn.Write` after
`conn.Close` returns an error in Go and delivers no bytes, so `connWrite`
on a closed connection is a no-op; the Go code ignores the `Write` error.
-/

/-- Client-visible state of one TCP connection: chunks delivered to the
client so far, and whether the server has closed it. -/
structure Conn where
  closed : Bool
  sent : List (List Char)
  deriving Repr, DecidableEq

/-- A freshly accepted connection: open, nothing written. -/
def connInit : Conn := ⟨false, []⟩

/-- Model of `conn.Write`: bytes reach the client only while the connection
is open; a write on a closed connection errors in Go and delivers nothing
(the source discards the error). -/
def connWrite (conn : Conn) (data : List Char) : Conn :=
  if conn.closed then conn else { conn with sent := conn.sent ++ [data] }

/-- Model of `conn.Close`. -/
def connClose (conn : Conn) : Conn :=
  { conn with closed := true }

/-- Model of Go `strings.TrimSpace` (ASCII whitespace). -/
def trimSpace (l : List Char) : List Char :=
  ((l.dropWhile Char.isWhitespace).reverse.dropWhile Char.isWhitespace).reverse

/-- Model of Go `strings.ToLower`, ASCII range. -/
def goToLower (l : List Char) : List Char := l.map Char.toLower

/-- Model of Go `strings.ToUpper`, ASCII range. -/
def goToUpper (l : List Char) : List Char := l.map Char.toUpper

namespace Regexp

/-- `Registrant` struct of `src/unnamed/part_000`. -/
structure Registrant where
  Name : List Char
  Address1 : List Char
  Address2 : List Char
  ZIP : List Char
  Country : List Char
  deriving Repr, DecidableEq

/-- `SuccessData` struct of `src/unnamed/part_000`. -/
structure SuccessData where
  DomainName : List Char
  Registrar : List Char
  Status : List Char
  Registrant : Registrant
  deriving Repr, DecidableEq

/-- `Administrative` struct of `src/unnamed/part_000`. -/
structure Administrative where
  Name : List Char
  Address1 : List Char
  Address2 : List Char
  ZIP : List Char
  Country : List Char
  Email : List Char
  Phone : List Char
  deriving Repr, DecidableEq

/-- `Technical` struct of `src/unnamed/part_000`. -/
structure Technical where
  Name : List Char
  Address1 : List Char
  Address2 : List Char
  ZIP : List Char
  Country : List Char
  Email : List Char
  Phone : List Char
  deriving Repr, DecidableEq

/-- `SuccessMoreData` struct of `src/unnamed/part_000`. -/
structure SuccessMoreData where
  Administrative : Administrative
  Technical : Technical
  DNS : List (List Char)
  Registered : List Char
  Modified : List Char
  Expires : List Char
  deriving Repr, DecidableEq

/-- The response texts of the template variant.  The template files under
`./tmpl` are referenced by `src/unnamed/part_000` but are not part of the
repository sources, so the rendered templates are abstract parameters:
`help`, `synErr`, `topErr`, `secondErr`, `lenErr` are the pre-rendered
static responses (`InitHelp`, `InitSyntaxError`, `InitTopError`,
`InitSecondError`, `InitLenError`), and `success` / `successMore` are the
render functions of the two success templates. -/
structure Tpls where
  help : List Char
  synErr : List Char
  topErr : List Char
  secondErr : List Char
  lenErr : List Char
  success : SuccessData → List Char
  successMore : SuccessMoreData → List Char

/-- One chunk of the character class `[a-z0-9]` of the validation regex. -/
def isLowerAlnum (c : Char) : Bool :=
  ('a' ≤ c && c ≤ 'z') || ('0' ≤ c && c ≤ '9')

/-- Recogniser for the sub-pattern `[a-z0-9]+(-[a-z0-9]+)*` (one interior
label of the domain): splitting the label on `-` must give non-empty,
all-alphanumeric chunks. -/
def labelOk (l : List Char) : Bool :=
  (l.splitOn '-').all (fun chunk => !chunk.isEmpty && chunk.all isLowerAlnum)

/-- Recogniser for the final sub-pattern `[a-z]{2,}`. -/
def finalLabelOk (l : List Char) : Bool :=
  2 ≤ l.length && l.all (fun c => 'a' ≤ c && c ≤ 'z')

/-- Recogniser for the anchored regular expression
`^([a-z0-9]+(-[a-z0-9]+)*\.)+[a-z]{2,}$` used by `checkDomain` of
`src/unnamed/part_000`.  Since no label may contain `.`, a string matches
exactly when splitting it on `.` yields at least two parts, every part but
the last matches the interior-label pattern and the last part matches
`[a-z]{2,}`. -/
def regexOk (l : List Char) : Bool :=
  let ps := l.splitOn '.'
  2 ≤ ps.length && ps.dropLast.all labelOk && finalLabelOk (ps.getLastD [])

/-- The hard-coded second-level categories of `checkDomain` in
`src/unnamed/part_000`. -/
def categories : List (List Char) :=
  ["com".data, "edu".data, "gov".data, "org".data, "mil".data, "net".data,
   "pvt".data]

/-- Ownership test of `checkDomain` in `src/unnamed/part_000`: either two
labels with apex `ge`, or three labels with a recognised category as middle
label and apex `ge`. -/
def owned (domainParts : List (List Char)) : Bool :=
  (domainParts.length == 2 && domainParts.getD 1 [] == "ge".data) ||
    (domainParts.length == 3 &&
      (categories.contains (domainParts.getD 1 []) &&
        domainParts.getD 2 [] == "ge".data))

/-- `checkDomain` of `src/unnamed/part_000`, as a state function on the
connection.  It lower-cases the query, matches the regex (failure writes the
syntax-error template), then tests ownership; an owned domain with a short
first label gets the length-error template, a two-label non-owned domain the
top-level-error template, any other non-owned domain the second-level-error
template.  Every branch of the Go function reaches a `return true`
statement, which is why the returned `Bool` is `true` in every case. -/
def checkDomain (tpls : Tpls) (domain : List Char) (conn : Conn) :
    Bool × Conn :=
  let domain := goToLower domain
  if !regexOk domain then
    (true, connClose (connWrite conn tpls.synErr))
  else
    let domainParts := domain.splitOn '.'
    if owned domainParts then
      if (domainParts.headD []).length < 2 then
        (true, connClose (connWrite conn tpls.lenErr))
      else
        (true, conn)
    else
      if domainParts.length == 2 then
        (true, connClose (connWrite conn tpls.topErr))
      else
        (true, connClose (connWrite conn tpls.secondErr))

/-- The `SuccessData` record that `handleSuccess` of `src/unnamed/part_000`
builds for the query (all fields but the domain name are literals). -/
def mkSuccessData (req : List Char) : SuccessData where
  DomainName := req
  Registrar := "RegNest.com (RegNest LLC)".data
  Status := "active, registrar locked".data
  Registrant :=
    { Name := "John Doe".data
      Address1 := "123 6th St.".data
      Address2 := "Melbourne, FL".data
      ZIP := "32904".data
      Country := "US".data }

/-- The literal `SuccessMoreData` record of `handleSuccess` in
`src/unnamed/part_000`. -/
def mkSuccessMoreData : SuccessMoreData where
  Administrative :=
    { Name := "John Doe".data
      Address1 := "123 6th St.".data
      Address2 := "Melbourne, FL".data
      ZIP := "32904".data
      Country := "US".data
      Phone := "6503491051".data
      Email := "john@doe.ge".data }
  Technical :=
    { Name := "John Doe".data
      Address1 := "123 6th St.".data
      Address2 := "Melbourne, FL".data
      ZIP := "32904".data
      Country := "US".data
      Phone := "6503491051".data
      Email := "john@doe.ge".data }
  DNS := ["coco.ns.cloudflare.com".data, "todd.ns.cloudflare.com".data]
  Registered := "2004-12-28".data
  Modified := "2017-06-14".data
  Expires := "2022-12-28".data

/-- `handleSuccess` of `src/unnamed/part_000`: renders and writes the
success template for the query, then the success-more template, then closes
the connection. -/
def handleSuccess (tpls : Tpls) (req : List Char) (conn : Conn) : Conn :=
  let conn := connWrite conn (tpls.success (mkSuccessData req))
  let conn := connWrite conn (tpls.successMore mkSuccessMoreData)
  connClose conn

/-- The non-`help` branch of `handleClient` in `src/unnamed/part_000`: run
`checkDomain` and, when it returns `true`, `handleSuccess`. -/
def domainQuery (tpls : Tpls) (req : List Char) (conn : Conn) : Conn :=
  let r := checkDomain tpls req conn
  if r.1 then handleSuccess tpls req r.2 else r.2

/-- One loop iteration of `handleClient` in `src/unnamed/part_000` on a
non-empty read: trim the bytes; the literal `help` gets the help response
and a close, anything else is passed to `checkDomain`/`handleSuccess`. -/
def handleRequest (tpls : Tpls) (raw : List Char) (conn : Conn) : Conn :=
  let req := trimSpace raw
  if req = "help".data then
    connClose (connWrite conn tpls.help)
  else
    domainQuery tpls req conn

/-- The read loop of `handleClient` in `src/unnamed/part_000`.  `chunks` is
the sequence of reads the client's data would produce; the `Nat` counts the
`conn.Read` calls performed.  A read on a connection the server has closed
fails (Go: use of closed network connection), which logs a warning and
leaves the loop; a read with no data pending fails at the deadline; a
zero-length read leaves the loop; otherwise the request is handled and the
loop repeats. -/
def handleLoop (tpls : Tpls) :
    List (List Char) → Conn → Nat → Conn × Nat
  | chunks, conn, n =>
    if conn.closed then (conn, n + 1)
    else
      match chunks with
      | [] => (conn, n + 1)
      | chunk :: rest =>
        if chunk = [] then (conn, n + 1)
        else handleLoop tpls rest (handleRequest tpls chunk conn) (n + 1)

/-- `handleClient` of `src/unnamed/part_000` on a fresh connection:
runs the read loop from the initial state. -/
def handleClient (tpls : Tpls) (chunks : List (List Char)) : Conn × Nat :=
  handleLoop tpls chunks connInit 0

/-- The `ValidationOutcome` of the specification. -/
inductive Outcome where
  | valid
  | synError
  | topLevelError
  | secondLevelError
  | lengthError
  deriving Repr, DecidableEq

/-- The classification realised by `checkDomain` of `src/unnamed/part_000`:
which template (if any) the validator writes for a query, mirrored branch
by branch. -/
def checkOutcome (domain : List Char) : Outcome :=
  let domain := goToLower domain
  if !regexOk domain then .synError
  else
    let domainParts := domain.splitOn '.'
    if owned domainParts then
      if (domainParts.headD []).length < 2 then .lengthError else .valid
    else
      if domainParts.length == 2 then .topLevelError else .secondLevelError

/-- The error template the template variant writes for each failure
outcome. -/
def errTpl (tpls : Tpls) : Outcome → List Char
  | .valid => []
  | .synError => tpls.synErr
  | .topLevelError => tpls.topErr
  | .secondLevelError => tpls.secondErr
  | .lengthError => tpls.lenErr

end Regexp

namespace Gorm

/-- `checkDomain` of `src/main.go`.  `strings.Index(domain, ".")` is the
position of the first `.`, so `domain[idx:]` is the suffix starting at that
dot; the suffix is compared case-insensitively against each entry of the
`TLDS` list.  When the query contains no `.`, `strings.Index` returns `-1`
and the slice expression `domain[-1:]` panics at run time, killing the
process: that execution is modelled as `none`. -/
def checkDomain (tlds : List (List Char)) (domain : List Char) :
    Option Bool :=
  if domain.contains '.' then
    let tldPart := domain.dropWhile (fun c => !(c = '.'))
    some (tlds.any (fun tld => goToUpper tldPart == goToUpper tld))
  else
    none

/-- `Nameserver` GORM model of `src/main.go`. -/
structure Nameserver where
  ID : Nat
  DNSName : List Char
  Nameserver : List Char
  deriving Repr, DecidableEq

/-- `DNS` GORM model of `src/main.go`.  `uint` columns are `Nat`; the
`time.Time` columns are modelled by the text Go's template engine prints
for them, since no claim depends on time formatting. -/
structure DNS where
  DNS : List Char
  StatusID : Nat
  HasDnsSec : Bool
  RegistrarID : Nat
  UpdatedDate : List Char
  CreationDate : List Char
  ExpirationDate : List Char
  Status : List Char
  DnsSecStatus : List Char
  RegistrarName : List Char
  RegistrarUrl : List Char
  RegistrarContactEmail : List Char
  RegistrarContactPhone : List Char
  RegistrantName : List Char
  RegistrantOrganization : List Char
  RegistrantStreet : List Char
  RegistrantCity : List Char
  RegistrantProvince : List Char
  RegistrantZipCode : Nat
  RegistrantCountry : List Char
  RegistrantPhone : List Char
  RegistrantPhoneExt : List Char
  RegistrantFax : List Char
  RegistrantFaxExt : List Char
  RegistrantEmail : List Char
  AdminName : List Char
  AdminOrganization : List Char
  AdminStreet : List Char
  AdminCity : List Char
  AdminProvince : List Char
  AdminZipCode : Nat
  AdminCountry : List Char
  AdminPhone : List Char
  AdminPhoneExt : List Char
  AdminFax : List Char
  AdminFaxExt : List Char
  AdminEmail : List Char
  TechName : List Char
  TechOrganization : List Char
  TechStreet : List Char
  TechCity : List Char
  TechProvince : List Char
  TechZipCode : Nat
  TechCountry : List Char
  TechPhone : List Char
  TechPhoneExt : List Char
  TechFax : List Char
  TechFaxExt : List Char
  TechEmail : List Char
  Nameservers : List Nameserver
  deriving Repr, DecidableEq

/-- The zero value `DNS{}` that `handleSuccess` starts from; a `Find` that
matches no row leaves it unchanged, in particular `DNS = ""`. -/
def zeroDNS : DNS where
  DNS := []
  StatusID := 0
  HasDnsSec := false
  RegistrarID := 0
  UpdatedDate := []
  CreationDate := []
  ExpirationDate := []
  Status := []
  DnsSecStatus := []
  RegistrarName := []
  RegistrarUrl := []
  RegistrarContactEmail := []
  RegistrarContactPhone := []
  RegistrantName := []
  RegistrantOrganization := []
  RegistrantStreet := []
  RegistrantCity := []
  RegistrantProvince := []
  RegistrantZipCode := 0
  RegistrantCountry := []
  RegistrantPhone := []
  RegistrantPhoneExt := []
  RegistrantFax := []
  RegistrantFaxExt := []
  RegistrantEmail := []
  AdminName := []
  AdminOrganization := []
  AdminStreet := []
  AdminCity := []
  AdminProvince := []
  AdminZipCode := 0
  AdminCountry := []
  AdminPhone := []
  AdminPhoneExt := []
  AdminFax := []
  AdminFaxExt := []
  AdminEmail := []
  TechName := []
  TechOrganization := []
  TechStreet := []
  TechCity := []
  TechProvince := []
  TechZipCode := 0
  TechCountry := []
  TechPhone := []
  TechPhoneExt := []
  TechFax := []
  TechFaxExt := []
  TechEmail := []
  Nameservers := []

/-- The rendered `helpContent` template of `src/main.go` (it has no
placeholders, so `InitHelp` produces the literal itself). -/
def helpRendered : List Char := "\n\t\n\tHELP\n\t\n".data

/-- The `successContent` template of `src/main.go` rendered for a record,
with the placeholders replaced by the record and configuration fields; the
literal text between placeholders is reproduced verbatim. -/
def successRendered (tldname addr : List Char) (dns : DNS) : List Char :=
  "\n%\n%".data ++ tldname ++
  " TLD whois server\n% Please see 'whois -h ".data ++ addr ++
  " help' for usage.\n%\n\nDomain Name: ".data ++ dns.DNS ++
  "\nUpdated Date: ".data ++ dns.UpdatedDate ++
  "\nCreation Date: ".data ++ dns.CreationDate ++
  "\nExpiration Date: ".data ++ dns.ExpirationDate ++
  "\nRegistrar: ".data ++ dns.RegistrarName ++
  "\nRegistrar URL: ".data ++ dns.RegistrarUrl ++
  "\nRegistrar Abuse Contact Email: ".data ++ dns.RegistrarContactEmail ++
  "\nRegistrar Abuse Contact Phone: ".data ++ dns.RegistrarContactPhone ++
  "\nRegistrant Name: ".data ++ dns.RegistrantName ++
  "\nRegistrant Organization: ".data ++ dns.RegistrantOrganization ++
  "\nRegistrant Street: ".data ++ dns.RegistrantStreet ++
  "\nRegistrant City: ".data ++ dns.RegistrantCity ++
  "\nRegistrant State/Province: ".data ++ dns.RegistrantProvince ++
  "\nRegistrant Postal Code: ".data ++ (Nat.repr dns.RegistrantZipCode).data ++
  "\nRegistrant Country: ".data ++ dns.RegistrantCountry ++
  "\nRegistrant Phone: ".data ++ dns.RegistrantPhone ++
  "\nRegistrant Phone Ext: ".data ++ dns.RegistrantPhoneExt ++
  "\nRegistrant Fax: ".data ++ dns.RegistrantFax ++
  "\nRegistrant Fax Ext: ".data ++ dns.RegistrantFaxExt ++
  "\nRegistrant Email: ".data ++ dns.RegistrantEmail ++ "\n".data

/-- The `successMoreContent` template of `src/main.go` rendered for a
record: the admin and tech contact blocks, one `Name Server:` line per
nameserver in stored order, and the DNSSEC status line. -/
def successMoreRendered (dns : DNS) : List Char :=
  "\nAdmin Name: ".data ++ dns.AdminName ++
  "\nAdmin Organization: ".data ++ dns.AdminOrganization ++
  "\nAdmin Street: ".data ++ dns.AdminStreet ++
  "\nAdmin City: ".data ++ dns.AdminCity ++
  "\nAdmin State/Province: ".data ++ dns.AdminProvince ++
  "\nAdmin Postal Code: ".data ++ (Nat.repr dns.AdminZipCode).data ++
  "\nAdmin Country: ".data ++ dns.AdminCountry ++
  "\nAdmin Phone: ".data ++ dns.AdminPhone ++
  "\nAdmin Phone Ext: ".data ++ dns.AdminPhoneExt ++
  "\nAdmin Fax: ".data ++ dns.AdminFax ++
  "\nAdmin Fax Ext: ".data ++ dns.AdminFaxExt ++
  "\nAdmin Email: ".data ++ dns.AdminEmail ++
  "\nTech Name: ".data ++ dns.TechName ++
  "\nTech Organization: ".data ++ dns.TechOrganization ++
  "\nTech Street: ".data ++ dns.TechStreet ++
  "\nTech City: ".data ++ dns.TechCity ++
  "\nTech State/Province: ".data ++ dns.TechProvince ++
  "\nTech Postal Code: ".data ++ (Nat.repr dns.TechZipCode).data ++
  "\nTech Country: ".data ++ dns.TechCountry ++
  "\nTech Phone: ".data ++ dns.TechPhone ++
  "\nTech Phone Ext: ".data ++ dns.TechPhoneExt ++
  "\nTech Fax: ".data ++ dns.TechFax ++
  "\nTech Fax Ext: ".data ++ dns.TechFaxExt ++
  "\nTech Email: ".data ++ dns.TechEmail ++ "\n".data ++
  (dns.Nameservers.map
    (fun ns => "Name Server: ".data ++ ns.Nameserver ++ "\n".data)).flatten ++
  "\nDNSSEC: ".data ++ dns.DnsSecStatus ++ "\n".data

/-- The `noMatchContent` template of `src/main.go` rendered for a query:
its `DNS` placeholder is the echoed query string. -/
def noMatchRendered (tldname addr dnsStr : List Char) : List Char :=
  "\n%\n%".data ++ tldname ++
  " TLD whois server\n% Please see 'whois -h ".data ++ addr ++
  " help' for usage.\n%\n\nNo match for \"".data ++ dnsStr ++ "\".\n".data

/-- `handleSuccess` of `src/main.go`.  `db` models
`DB.Where("dns = ?", req).Find(&dns)`: the record stored for the query, if
any; a miss leaves the zero value.  A non-empty `DNS` field selects the
success path, where `DB.Find(&dns.Nameservers)` loads the nameserver table
(`allNs`) and the two success templates are written; otherwise the no-match
template echoing the query is written.  Either way the connection is then
closed. -/
def handleSuccess (db : List Char → Option DNS) (allNs : List Nameserver)
    (tldname addr : List Char) (req : List Char) (conn : Conn) : Conn :=
  let dns := (db req).getD zeroDNS
  if !(dns.DNS = []) then
    let dns := { dns with Nameservers := allNs }
    let conn := connWrite conn (successRendered tldname addr dns)
    let conn := connWrite conn (successMoreRendered dns)
    connClose conn
  else
    let conn := connWrite conn (noMatchRendered tldname addr req)
    connClose conn

/-- One loop iteration of `handleClient` in `src/main.go` on a non-empty
read: trim, answer `help` directly, otherwise dispatch on `checkDomain` —
`true` runs `handleSuccess`, `false` closes the connection with no write,
and a panic of `checkDomain` (query without `.`) aborts the process
(`none`). -/
def handleRequest (db : List Char → Option DNS) (allNs : List Nameserver)
    (tldname addr : List Char) (tlds : List (List Char))
    (raw : List Char) (conn : Conn) : Option Conn :=
  let req := trimSpace raw
  if req = "help".data then
    some (connClose (connWrite conn helpRendered))
  else
    match checkDomain tlds req with
    | none => none
    | some true => some (handleSuccess db allNs tldname addr req conn)
    | some false => some (connClose conn)

end Gorm

namespace SharedBuf

/-- The primitive operations `handleSuccess` of `src/main.go` performs on
the package-level shared buffer `tpl`: `reset` is `tpl.Reset()`;
`exec payload` is an `ExecuteTemplate(&tpl, ...)` call, which appends the
rendered text to the buffer; `flush` is `conn.Write([]byte(tpl.String()))`,
delivering the current buffer contents to the owning connection. -/
inductive RenderOp where
  | reset
  | exec (payload : List Char)
  | flush
  deriving Repr, DecidableEq

/-- Joint state of two concurrently running handlers: the single
package-level buffer `tpl` (shared, since `var tpl bytes.Buffer` is
declared once for the whole process) plus the chunks each handler's
connection has received. -/
structure BufState where
  buf : List Char
  out1 : List (List Char)
  out2 : List (List Char)
  deriving Repr, DecidableEq

/-- Initial state: empty buffer, nothing delivered. -/
def startState : BufState := ⟨[], [], []⟩

/-- Effect of one buffer operation run by handler 1 (`who = true`) or
handler 2 (`who = false`). -/
def doOp (who : Bool) (op : RenderOp) (s : BufState) : BufState :=
  match op with
  | .reset => { s with buf := [] }
  | .exec payload => { s with buf := s.buf ++ payload }
  | .flush =>
    if who then { s with out1 := s.out1 ++ [s.buf] }
    else { s with out2 := s.out2 ++ [s.buf] }

/-- Run a schedule: a sequence of owner-tagged buffer operations, as the Go
scheduler may interleave them between two goroutines. -/
def runOps : List (Bool × RenderOp) → BufState → BufState
  | [], s => s
  | (who, op) :: rest, s => runOps rest (doOp who op s)

/-- The operation sequence the no-match branch of `handleSuccess` in
`src/main.go` performs against the shared buffer: `tpl.Reset()`, render the
no-match template into `tpl`, write `tpl.String()` to the connection. -/
def noMatchOps (payload : List Char) : List RenderOp :=
  [.reset, .exec payload, .flush]

/-- Tag every operation of one handler's sequence with its owner. -/
def tagOps (who : Bool) (ops : List RenderOp) : List (Bool × RenderOp) :=
  ops.map (fun op => (who, op))

end SharedBuf


/-- Concrete template texts used to instantiate the abstract template
parameters of the template variant in witnesses and counterexamples. -/
def tpls0 : Regexp.Tpls where
  help := "HELPTEXT".data
  synErr := "SYNERR".data
  topErr := "TOPERR".data
  secondErr := "SECERR".data
  lenErr := "LENERR".data
  success := fun _ => "SUCCESSTEXT".data
  successMore := fun _ => "SUCCESSMORETEXT".data

theorem charToNatOfNat (n : Nat) (h : n.isValidChar) :
    (Char.ofNat n).toNat = n := by
  unfold Char.ofNat
  rw [dif_pos h]
  unfold Char.ofNatAux
  simp [Char.toNat, UInt32.toNat, Nat.isValidChar] at *

theorem charToNatInj (a b : Char) (h : a.toNat = b.toNat) : a = b := by
  apply Char.ext
  simp [Char.toNat] at h
  exact UInt32.toNat.inj h

theorem charOfNatToNat (c : Char) : Char.ofNat c.toNat = c :=
  charToNatInj _ _ (charToNatOfNat c.toNat c.valid)

/-- ASCII upper-casing is determined by the lower-cased character. -/
theorem toUpper_toLower (c : Char) : c.toLower.toUpper = c.toUpper := by
  unfold Char.toLower
  by_cases h : c.toNat ≥ 65 ∧ c.toNat ≤ 90
  · rw [if_pos h]
    have ht : (Char.ofNat (c.toNat + 32)).toNat = c.toNat + 32 :=
      charToNatOfNat _ (Or.inl (by omega))
    unfold Char.toUpper
    rw [ht]
    rw [if_pos (by omega), if_neg (by omega)]
    have h32 : c.toNat + 32 - 32 = c.toNat := by omega
    rw [h32, charOfNatToNat]
  · rw [if_neg h]

/-- Lower-casing neither produces nor destroys a dot. -/
theorem toLower_eq_dot_iff (c : Char) : c.toLower = '.' ↔ c = '.' := by
  constructor
  · intro h
    unfold Char.toLower at h
    by_cases hc : c.toNat ≥ 65 ∧ c.toNat ≤ 90
    · rw [if_pos hc] at h
      have ht : (Char.ofNat (c.toNat + 32)).toNat = c.toNat + 32 :=
        charToNatOfNat _ (Or.inl (by omega))
      rw [h] at ht
      have h46 : ('.' : Char).toNat = 46 := rfl
      omega
    · rwa [if_neg hc] at h
  · intro h
    subst h
    decide

/-- Case-equivalent strings agree on where their dots are and on their
upper-cased forms, hence on everything `checkDomain` of `src/main.go`
computes from them. -/
theorem mapToUpper_of_mapToLower (l₁ l₂ : List Char)
    (h : l₁.map Char.toLower = l₂.map Char.toLower) :
    l₁.map Char.toUpper = l₂.map Char.toUpper := by
  induction l₁ generalizing l₂ with
  | nil => cases l₂ with
    | nil => rfl
    | cons b t₂ => simp at h
  | cons a t₁ ih =>
    cases l₂ with
    | nil => simp at h
    | cons b t₂ =>
      simp only [List.map_cons, List.cons.injEq] at h ⊢
      exact ⟨by rw [← toUpper_toLower a, ← toUpper_toLower b, h.1],
        ih t₂ h.2⟩

theorem contains_dot_of_mapToLower (l₁ l₂ : List Char)
    (h : l₁.map Char.toLower = l₂.map Char.toLower) :
    l₁.contains '.' = l₂.contains '.' := by
  induction l₁ generalizing l₂ with
  | nil => cases l₂ with
    | nil => rfl
    | cons b t₂ => simp at h
  | cons a t₁ ih =>
    cases l₂ with
    | nil => simp at h
    | cons b t₂ =>
      simp only [List.map_cons, List.cons.injEq] at h
      have hdot : (a = '.') ↔ (b = '.') := by
        constructor
        · intro ha
          exact (toLower_eq_dot_iff b).mp (by rw [← h.1, ha]; rfl)
        · intro hb
          exact (toLower_eq_dot_iff a).mp (by rw [h.1, hb]; rfl)
      simp only [List.contains_cons]
      rw [ih t₂ h.2]
      by_cases ha : a = '.'
      · simp [ha, hdot.mp ha]
      · have hb : ¬ b = '.' := fun hb => ha (hdot.mpr hb)
        simp [beq_false_of_ne (Ne.symm ha), beq_false_of_ne (Ne.symm hb)]

theorem dropWhile_dot_of_mapToLower (l₁ l₂ : List Char)
    (h : l₁.map Char.toLower = l₂.map Char.toLower) :
    (l₁.dropWhile (fun c => !(c = '.'))).map Char.toLower
      = (l₂.dropWhile (fun c => !(c = '.'))).map Char.toLower := by
  induction l₁ generalizing l₂ with
  | nil => cases l₂ with
    | nil => rfl
    | cons b t₂ => simp at h
  | cons a t₁ ih =>
    cases l₂ with
    | nil => simp at h
    | cons b t₂ =>
      simp only [List.map_cons, List.cons.injEq] at h
      have hdot : (a = '.') ↔ (b = '.') := by
        constructor
        · intro ha
          exact (toLower_eq_dot_iff b).mp (by rw [← h.1, ha]; rfl)
        · intro hb
          exact (toLower_eq_dot_iff a).mp (by rw [h.1, hb]; rfl)
      by_cases ha : a = '.'
      · have hb : b = '.' := hdot.mp ha
        simp [List.dropWhile, ha, hb, h.1, h.2]
      · have hb : ¬ b = '.' := fun hb => ha (hdot.mpr hb)
        have ha2 : (!decide (a = '.')) = true := by simp [ha]
        have hb2 : (!decide (b = '.')) = true := by simp [hb]
        simp only [List.dropWhile, ha2, hb2]
        exact ih t₂ h.2

/-- The `Bool` result of `checkDomain` in `src/unnamed/part_000` is `true`
on every control path. -/
theorem regexp_checkDomain_fst (tpls : Regexp.Tpls) (d : List Char)
    (conn : Conn) : (Regexp.checkDomain tpls d conn).1 = true := by
  unfold Regexp.checkDomain
  cases hreg : Regexp.regexOk (goToLower d) with
  | false => simp [hreg]
  | true =>
    cases hown : Regexp.owned ((goToLower d).splitOn '.') with
    | true =>
      by_cases hlen : (((goToLower d).splitOn '.').head?.getD []).length < 2 <;>
        simp [hreg, hown, hlen]
    | false =>
      cases h2 : ((goToLower d).splitOn '.').length == 2 <;>
        simp [hreg, hown, h2]

/-- `checkDomain` of `src/unnamed/part_000` realises exactly the
classification `checkOutcome`: it returns `true` and writes the error
template of the outcome (no write for a valid domain) before closing. -/
theorem regexp_checkDomain_eq (tpls : Regexp.Tpls) (d : List Char)
    (conn : Conn) :
    Regexp.checkDomain tpls d conn =
      (true,
        match Regexp.checkOutcome d with
        | Regexp.Outcome.valid => conn
        | o => connClose (connWrite conn (Regexp.errTpl tpls o))) := by
  unfold Regexp.checkDomain Regexp.checkOutcome
  cases hreg : Regexp.regexOk (goToLower d) with
  | false => simp [hreg, Regexp.errTpl]
  | true =>
    cases hown : Regexp.owned ((goToLower d).splitOn '.') with
    | true =>
      by_cases hlen : (((goToLower d).splitOn '.').head?.getD []).length < 2 <;>
        simp [hreg, hown, hlen, Regexp.errTpl]
    | false =>
      cases h2 : ((goToLower d).splitOn '.').length == 2 <;>
        simp [hreg, hown, h2, Regexp.errTpl]

/-- `handleSuccess` of `src/unnamed/part_000` run on a connection the
validator has already closed delivers nothing: both writes fail. -/
theorem regexp_handleSuccess_closed (tpls : Regexp.Tpls) (req : List Char)
    (conn : Conn) (h : conn.closed = true) :
    Regexp.handleSuccess tpls req conn = conn := by
  cases conn with
  | mk cl s =>
    simp at h
    subst h
    simp [Regexp.handleSuccess, connWrite, connClose]

/-- Every request processed by the template variant ends with the
connection closed (every branch of `handleClient`'s body either closes
directly or runs `handleSuccess`, which closes). -/
theorem regexp_handleRequest_closed (tpls : Regexp.Tpls) (raw : List Char)
    (conn : Conn) : (Regexp.handleRequest tpls raw conn).closed = true := by
  unfold Regexp.handleRequest
  by_cases h : trimSpace raw = "help".data
  · simp [h, connClose]
  · simp only [h, if_neg h, Regexp.domainQuery,
      regexp_checkDomain_fst, if_pos]
    simp [Regexp.handleSuccess, connClose]

/-- C1: the claim says the Domain Validator is total over all input
strings, with a dotless input classified as SyntaxError and never a crash.
The DB variant violates this: `checkDomain` of `src/main.go` evaluates
`domain[strings.Index(domain, "."):]`, and on the dotless query `ge`
`strings.Index` returns `-1`, so the slice panics and the process dies
(modelled as `none`); the template variant's validator does classify the
same input as a syntax error. -/
theorem c1_dotless_query_crashes_db_variant :
    Gorm.checkDomain [".ge".data] "ge".data = none ∧
    Regexp.checkOutcome "ge".data = Regexp.Outcome.synError :=
  ⟨rfl, rfl⟩

/-- C2 counterexample: in the DB variant with `TLDS=.ge`, the classification
failure (NotOwned) for `example.com` closes the connection with an empty
response body — a silent drop, contradicting the claim that every
classification failure produces a user-visible templated response. -/
theorem c2_counterexample_notowned_silent_close :
    Gorm.handleRequest (fun _ => none) [] ".ge".data "whois.nic.ge".data
        [".ge".data] "example.com".data connInit
      = some ⟨true, []⟩ :=
  rfl

/-- C2 amended: in the template variant every non-`help` request whose
classification is a failure outcome receives exactly the error template of
that outcome before the connection is closed; in the DB variant a NotOwned
classification closes the connection silently (see the counterexample). -/
theorem c2_template_variant_errors_templated (tpls : Regexp.Tpls)
    (raw : List Char) (h1 : trimSpace raw ≠ "help".data)
    (h2 : Regexp.checkOutcome (trimSpace raw) ≠ Regexp.Outcome.valid) :
    (Regexp.handleRequest tpls raw connInit).sent
        = [Regexp.errTpl tpls (Regexp.checkOutcome (trimSpace raw))] ∧
    (Regexp.handleRequest tpls raw connInit).closed = true := by
  have hreq : Regexp.handleRequest tpls raw connInit
      = Regexp.domainQuery tpls (trimSpace raw) connInit := by
    simp only [Regexp.handleRequest]
    rw [if_neg h1]
  rw [hreq]
  simp only [Regexp.domainQuery, regexp_checkDomain_eq]
  cases ho : Regexp.checkOutcome (trimSpace raw) with
  | valid => exact absurd ho h2
  | synError =>
    simp [Regexp.handleSuccess, Regexp.errTpl, connWrite, connClose, connInit]
  | topLevelError =>
    simp [Regexp.handleSuccess, Regexp.errTpl, connWrite, connClose, connInit]
  | secondLevelError =>
    simp [Regexp.handleSuccess, Regexp.errTpl, connWrite, connClose, connInit]
  | lengthError =>
    simp [Regexp.handleSuccess, Regexp.errTpl, connWrite, connClose, connInit]

/-- C2 witness: the dotless query `ge` is a SyntaxError, and the client
receives exactly the syntax-error template. -/
theorem c2_template_variant_errors_templated_witness :
    (Regexp.handleRequest tpls0 "ge".data connInit).sent
        = [Regexp.errTpl tpls0 (Regexp.checkOutcome (trimSpace "ge".data))] ∧
    (Regexp.handleRequest tpls0 "ge".data connInit).closed = true :=
  c2_template_variant_errors_templated tpls0 "ge".data (by decide) (by decide)

/-- C3: the query `x.com.ge` is classified LengthError (its category `com`
is in the hard-coded category set and apex is `ge`, but label `x` has
length 1 < 2), and the client receives exactly the length-error template
and a closed connection — not the success treatment. -/
theorem c3_x_com_ge_length_error (tpls : Regexp.Tpls) :
    Regexp.checkOutcome "x.com.ge".data = Regexp.Outcome.lengthError ∧
    (Regexp.handleRequest tpls "x.com.ge".data connInit).sent
        = [tpls.lenErr] ∧
    (Regexp.handleRequest tpls "x.com.ge".data connInit).closed = true :=
  ⟨rfl, rfl, rfl⟩

/-- C4: a syntactically valid domain that fails the ownership check is
classified TopLevelError when it has exactly two labels, and
SecondLevelError when it has three labels whose middle label is outside
the category set. -/
theorem c4_ownership_failure_errors (s : List Char)
    (h1 : Regexp.regexOk (goToLower s) = true)
    (h2 : Regexp.owned ((goToLower s).splitOn '.') = false) :
    (((goToLower s).splitOn '.').length = 2 →
      Regexp.checkOutcome s = Regexp.Outcome.topLevelError) ∧
    (((goToLower s).splitOn '.').length = 3 →
      Regexp.categories.contains (((goToLower s).splitOn '.').getD 1 [])
          = false →
      Regexp.checkOutcome s = Regexp.Outcome.secondLevelError) := by
  constructor
  · intro hlen
    simp [Regexp.checkOutcome, h1, h2, hlen]
  · intro hlen _
    simp [Regexp.checkOutcome, h1, h2, hlen]

/-- C4 witness at the two-label domain `example.com` (apex `com` is not
`ge`, so ownership fails and the outcome is TopLevelError). -/
theorem c4_ownership_failure_errors_witness :
    ((((goToLower "example.com".data).splitOn '.').length = 2 →
      Regexp.checkOutcome "example.com".data
          = Regexp.Outcome.topLevelError) ∧
     (((goToLower "example.com".data).splitOn '.').length = 3 →
      Regexp.categories.contains
          (((goToLower "example.com".data).splitOn '.').getD 1 [])
          = false →
      Regexp.checkOutcome "example.com".data
          = Regexp.Outcome.secondLevelError)) :=
  c4_ownership_failure_errors "example.com".data (by decide) (by decide)

/-- C5: two query strings that differ only in (ASCII) letter case get the
same outcome from both validators: the template variant lower-cases the
query before anything else, and the DB variant compares upper-cased
suffixes against upper-cased TLD entries. -/
theorem c5_case_insensitive (tlds : List (List Char)) (s₁ s₂ : List Char)
    (h : s₁.map Char.toLower = s₂.map Char.toLower) :
    Regexp.checkOutcome s₁ = Regexp.checkOutcome s₂ ∧
    Gorm.checkDomain tlds s₁ = Gorm.checkDomain tlds s₂ := by
  constructor
  · have hg : goToLower s₁ = goToLower s₂ := h
    simp only [Regexp.checkOutcome, hg]
  · have hcont := contains_dot_of_mapToLower s₁ s₂ h
    have hupper : (s₁.dropWhile (fun c => !(c = '.'))).map Char.toUpper
        = (s₂.dropWhile (fun c => !(c = '.'))).map Char.toUpper :=
      mapToUpper_of_mapToLower _ _ (dropWhile_dot_of_mapToLower s₁ s₂ h)
    simp only [Gorm.checkDomain, goToUpper, hcont, hupper]

/-- C5 witness at the claim's example pair `EXAMPLE.GE` / `example.ge`. -/
theorem c5_case_insensitive_witness :
    Regexp.checkOutcome "EXAMPLE.GE".data
        = Regexp.checkOutcome "example.ge".data ∧
    Gorm.checkDomain [".ge".data] "EXAMPLE.GE".data
        = Gorm.checkDomain [".ge".data] "example.ge".data :=
  c5_case_insensitive [".ge".data] "EXAMPLE.GE".data "example.ge".data
    (by decide)

/-- C6: the exact trimmed literal `help` gets the Help response and a
close; any other request, in particular the casings `Help` and `HELP`,
takes the domain-query path, where those two fail the (lower-cased) regex
for lack of a dot and receive the syntax-error template. -/
theorem c6_help_literal_case_sensitive (tpls : Regexp.Tpls)
    (raw : List Char) (h : trimSpace raw ≠ "help".data) :
    Regexp.handleRequest tpls "help".data connInit
        = connClose (connWrite connInit tpls.help) ∧
    Regexp.handleRequest tpls raw connInit
        = Regexp.domainQuery tpls (trimSpace raw) connInit ∧
    (Regexp.handleRequest tpls "Help".data connInit).sent = [tpls.synErr] ∧
    (Regexp.handleRequest tpls "HELP".data connInit).sent = [tpls.synErr]
    := by
  refine ⟨rfl, ?_, rfl, rfl⟩
  simp only [Regexp.handleRequest]
  rw [if_neg h]

/-- C6 witness at the request `HELP`. -/
theorem c6_help_literal_case_sensitive_witness :
    Regexp.handleRequest tpls0 "help".data connInit
        = connClose (connWrite connInit tpls0.help) ∧
    Regexp.handleRequest tpls0 "HELP".data connInit
        = Regexp.domainQuery tpls0 (trimSpace "HELP".data) connInit ∧
    (Regexp.handleRequest tpls0 "Help".data connInit).sent
        = [tpls0.synErr] ∧
    (Regexp.handleRequest tpls0 "HELP".data connInit).sent
        = [tpls0.synErr] :=
  c6_help_literal_case_sensitive tpls0 "HELP".data (by decide)

/-- C7: the query `example.ge` with `TLDS=.ge` and no registry record gets
exactly the rendered no-match template, whose body contains the line
`No match for "example.ge".` echoing the queried domain. -/
theorem c7_example_ge_no_match (tldname addr : List Char)
    (allNs : List Gorm.Nameserver) :
    Gorm.handleRequest (fun _ => none) allNs tldname addr [".ge".data]
        "example.ge".data connInit
      = some ⟨true, [Gorm.noMatchRendered tldname addr "example.ge".data]⟩ ∧
    List.IsInfix ("No match for \"example.ge\".".data)
      (Gorm.noMatchRendered tldname addr "example.ge".data) := by
  constructor
  · rfl
  · refine ⟨"\n%\n%".data ++ tldname
        ++ " TLD whois server\n% Please see 'whois -h ".data ++ addr
        ++ " help' for usage.\n%\n\n".data, "\n".data, ?_⟩
    simp only [Gorm.noMatchRendered, List.append_assoc]
    have hc : " help' for usage.\n%\n\n".data
          ++ ("No match for \"example.ge\".".data ++ "\n".data)
        = " help' for usage.\n%\n\nNo match for \"".data
          ++ ("example.ge".data ++ "\".\n".data) := rfl
    rw [hc]

/-- Unfolding of one non-trivial read-loop iteration: an open connection
with a non-empty chunk handles the request and loops. -/
theorem regexp_handleLoop_cons (tpls : Regexp.Tpls) (c : List Char)
    (rest : List (List Char)) (conn : Conn) (n : Nat)
    (hopen : conn.closed = false) (hc : c ≠ []) :
    Regexp.handleLoop tpls (c :: rest) conn n
      = Regexp.handleLoop tpls rest (Regexp.handleRequest tpls c conn)
          (n + 1) := by
  rw [Regexp.handleLoop.eq_def]
  simp [hopen, hc]

/-- A read on a connection the server has already closed fails immediately
and leaves the loop, counting one more read attempt. -/
theorem regexp_handleLoop_closed (tpls : Regexp.Tpls)
    (chunks : List (List Char)) (conn : Conn) (n : Nat)
    (h : conn.closed = true) :
    Regexp.handleLoop tpls chunks conn n = (conn, n + 1) := by
  rw [Regexp.handleLoop.eq_def]
  simp [h]

/-- C8 counterexample: after answering the single query `help` the handler
does not stop — the loop performs a second `conn.Read` on the
already-answered (closed) connection, so the total read count is 2, even
though exactly one response was written.  This contradicts the claim that
the handler `never reads ... on an already-answered connection`. -/
theorem c8_counterexample_second_read :
    (Regexp.handleClient tpls0 ["help".data]).2 = 2 ∧
    ((Regexp.handleClient tpls0 ["help".data]).1).sent = [tpls0.help] ∧
    ((Regexp.handleClient tpls0 ["help".data]).1).closed = true :=
  ⟨rfl, rfl, rfl⟩

/-- C8 amended: the handler loops and re-reads after answering, but every
answered request leaves the connection closed, so the extra read fails and
the loop exits: the whole interaction (responses and read count) is
determined by the first read alone, and no second query is ever answered. -/
theorem c8_only_first_read_answered (tpls : Regexp.Tpls)
    (chunks : List (List Char)) :
    Regexp.handleClient tpls chunks
      = Regexp.handleClient tpls (chunks.take 1) := by
  cases chunks with
  | nil => rfl
  | cons c rest =>
    show Regexp.handleLoop tpls (c :: rest) connInit 0
        = Regexp.handleLoop tpls [c] connInit 0
    by_cases hc : c = []
    · subst hc
      rw [Regexp.handleLoop.eq_def, Regexp.handleLoop.eq_def]
      simp [connInit]
    · rw [regexp_handleLoop_cons tpls c rest connInit 0 rfl hc,
        regexp_handleLoop_cons tpls c [] connInit 0 rfl hc,
        regexp_handleLoop_closed tpls rest _ 1
          (regexp_handleRequest_closed tpls c connInit),
        regexp_handleLoop_closed tpls [] _ 1
          (regexp_handleRequest_closed tpls c connInit)]

/-- Rendered no-match response for `foo.ge`, used as the payload of the
first concurrent handler in the shared-buffer schedule. -/
def nmA : List Char :=
  Gorm.noMatchRendered ".ge".data "whois.nic.ge".data "foo.ge".data

/-- Rendered no-match response for `bar.ge`, used as the payload of the
second concurrent handler in the shared-buffer schedule. -/
def nmB : List Char :=
  Gorm.noMatchRendered ".ge".data "whois.nic.ge".data "bar.ge".data

/-- An interleaving of the two handlers' buffer operations: handler 1
resets and renders, then handler 2 resets and renders, then both flush. -/
def c9sched : List (Bool × SharedBuf.RenderOp) :=
  [(true, SharedBuf.RenderOp.reset),
   (true, SharedBuf.RenderOp.exec nmA),
   (false, SharedBuf.RenderOp.reset),
   (false, SharedBuf.RenderOp.exec nmB),
   (true, SharedBuf.RenderOp.flush),
   (false, SharedBuf.RenderOp.flush)]

/-- C9 counterexample: `c9sched` is a legitimate interleaving of the two
handlers' no-match render sequences (each handler's operations appear in
program order), yet connection 1 receives handler 2's render `nmB` — the
response for `bar.ge` — instead of its own render `nmA`, because both
handlers execute their templates into the single package-level buffer
`tpl` of `src/main.go`.  This contradicts the claim that render-buffer
state is private per connection and responses cannot carry another
connection's bytes. -/
theorem c9_counterexample_interleaving :
    (c9sched.filter (fun x => x.1)).map Prod.snd
        = SharedBuf.noMatchOps nmA ∧
    (c9sched.filter (fun x => !x.1)).map Prod.snd
        = SharedBuf.noMatchOps nmB ∧
    (SharedBuf.runOps c9sched SharedBuf.startState).out1 = [nmB] ∧
    nmA ≠ nmB :=
  ⟨rfl, rfl, rfl, by decide⟩

/-- C9 amended: the handlers render through the one shared package-level
buffer; only when the two handlers' operation sequences are serialised
(no interleaving) does each connection receive exactly its own render. -/
theorem c9_serial_schedule_private (p1 p2 : List Char) :
    SharedBuf.runOps
        (SharedBuf.tagOps true (SharedBuf.noMatchOps p1)
          ++ SharedBuf.tagOps false (SharedBuf.noMatchOps p2))
        SharedBuf.startState
      = ⟨p2, [p1], [p2]⟩ :=
  rfl

/-- C10: `checkDomain` of `src/unnamed/part_000` returns `true` on every
input (all its error branches fall through to the final `return true`), so
for every non-`help` request `handleClient` goes on to invoke
`handleSuccess` on the connection state `checkDomain` left behind — even
when an error response has already been written and the connection
closed. -/
theorem c10_checkDomain_always_true (tpls : Regexp.Tpls)
    (domain : List Char) (conn : Conn) (raw : List Char) (conn2 : Conn)
    (h : trimSpace raw ≠ "help".data) :
    (Regexp.checkDomain tpls domain conn).1 = true ∧
    Regexp.handleRequest tpls raw conn2
      = Regexp.handleSuccess tpls (trimSpace raw)
          (Regexp.checkDomain tpls (trimSpace raw) conn2).2 := by
  refine ⟨regexp_checkDomain_fst tpls domain conn, ?_⟩
  simp only [Regexp.handleRequest]
  rw [if_neg h]
  simp only [Regexp.domainQuery]
  rw [if_pos (regexp_checkDomain_fst tpls (trimSpace raw) conn2)]

/-- C10 witness at the dotless input `nodot` and the request `x.com.ge`. -/
theorem c10_checkDomain_always_true_witness :
    (Regexp.checkDomain tpls0 "nodot".data connInit).1 = true ∧
    Regexp.handleRequest tpls0 "x.com.ge".data connInit
      = Regexp.handleSuccess tpls0 (trimSpace "x.com.ge".data)
          (Regexp.checkDomain tpls0 (trimSpace "x.com.ge".data) connInit).2
    :=
  c10_checkDomain_always_true tpls0 "nodot".data connInit
    "x.com.ge".data connInit (by decide)
